import Mathlib

/-!
Verification development for the litmapper resource-cache and clustering core
(`backend/litmapper/kv/util.py`, `backend/litmapper/schemas.py`).

The Python code is shallowly embedded: Redis hash operations become operations
on a two-key finite map, pydantic models become Lean structures whose
validators become validating constructors returning `Except`, and external
numeric libraries (UMAP, HDBSCAN, sklearn metrics) become oracle function
parameters whose documented contracts appear as theorem hypotheses.
-/

namespace Litmapper

/-! ## Key-value store model

Redis values are byte strings; we model a byte string as a list of bytes.
The store is a map from (hash key, field) to an optional byte string,
mirroring the Redis hash commands used by the code: HGET, HSET, HSETNX, HDEL.
-/

/-- Byte string stored in Redis, modelled as a list of bytes. -/
abbrev Bytes := List Nat

/-- Redis hash store: maps a (hash key, field) pair to an optional value. -/
def KV := String → String → Option Bytes

/-- The empty store (no keys set). -/
def emptyKV : KV := fun _ _ => none

/-- Model of Redis HGET on a hash key and field. -/
def hget (kv : KV) (key field : String) : Option Bytes := kv key field

/-- Model of Redis HSET: set the field unconditionally. -/
def hset (kv : KV) (key field : String) (v : Bytes) : KV :=
  fun key' field' => if key' = key ∧ field' = field then some v else kv key' field'

/-- Model of Redis HSETNX: set the field only if it is absent. -/
def hsetnx (kv : KV) (key field : String) (v : Bytes) : KV :=
  if hget kv key field = none then hset kv key field v else kv

/-- Model of Redis HDEL: delete the field. -/
def hdel (kv : KV) (key field : String) : KV :=
  fun key' field' => if key' = key ∧ field' = field then none else kv key' field'

/-! ## Errors

Embedding of `litmapper/errors.py` plus the other exception kinds that flow
through `kv/util.py` (pydantic `ValidationError` from schema validators, plain
`ValueError`, and the dramatiq worker `Shutdown` signal).
-/

/-- Exceptions raised by the resource-cache code paths. -/
inductive Err where
  | resourceDoesNotExist
  | resourceCreationInProgress
  | resourceExists
  | validationError (msg : String)
  | valueError (msg : String)
  | shutdown
deriving DecidableEq, Repr

/-! ## In-progress sentinel and resource lookup (`kv/util.py`) -/

/-- Embedding of `IN_PROGRESS_VAL = ""`: the zero-length byte string. -/
def IN_PROGRESS_VAL : Bytes := []

/-- Embedding of `is_in_progress`: the value is present and has zero length. -/
def is_in_progress (resource_val : Option Bytes) : Bool :=
  resource_val.isSome && (resource_val.getD []).length == 0

/-- Embedding of `find_resource_hash`: read the cache entry for a params hash;
absent raises `ResourceDoesNotExist`, zero-length value raises
`ResourceCreationInProgress`, otherwise the bytes are deserialized with the
registered result class (`result_cls.parse_raw`; a parse failure is pydantic's
`ValidationError`). The hash key and deserializer for the resource class come
from the registry tables and are passed in explicitly. -/
def find_resource_hash {R : Type} (kv : KV) (hash_key : String)
    (parse : Bytes → Option R) (params_hash : String) : Except Err R :=
  match hget kv hash_key params_hash with
  | none => .error .resourceDoesNotExist
  | some val =>
      if is_in_progress (some val) then .error .resourceCreationInProgress
      else
        match parse val with
        | some r => .ok r
        | none => .error (.validationError "parse_raw failed")

/-! ## Reservation protocol (`reserve_resource`) -/

/-- Outcome of a `reserve_resource` scope: either the reservation was granted
and the caller's body ran (successfully or raising), or one of the two failure
exceptions was raised before the scope was entered. Each constructor carries
the store state at that point. -/
inductive ReserveOutcome (α : Type) where
  | granted (kv : KV) (a : α)
  | bodyFailed (kv : KV) (e : Err)
  | creationInProgress (kv : KV)
  | resourceExists (kv : KV)

/-- Store state in which the caller's scope runs after a granted reservation:
the pipelined HSETNX has planted the sentinel, and with `force=True` the code
additionally re-plants it unconditionally with HSET. -/
def reservedState (kv : KV) (hash_key params_hash : String) (force : Bool) : KV :=
  let kv1 := hsetnx kv hash_key params_hash IN_PROGRESS_VAL
  if force then hset kv1 hash_key params_hash IN_PROGRESS_VAL else kv1

/-- Scoped part of `reserve_resource`: run the caller's body (`yield`); on any
exception (including `Shutdown`) delete the in-progress field and re-raise;
on normal completion leave the store exactly as the body left it. -/
def runScope {α : Type} (kv2 : KV) (hash_key params_hash : String)
    (body : KV → KV × Except Err α) : ReserveOutcome α :=
  match body kv2 with
  | (kv3, Except.ok a) => ReserveOutcome.granted kv3 a
  | (kv3, Except.error e) => ReserveOutcome.bodyFailed (hdel kv3 hash_key params_hash) e

/-- Embedding of `reserve_resource`: a pipelined (hence atomic, modelled as a
single step) HGET + HSETNX, then a three-way classification of the prior
value. `prev_val is None or force` grants the reservation and enters the
caller's scope; a zero-length prior value raises `ResourceCreationInProgress`;
any other prior value raises `ResourceExists`. -/
def reserve_resource {α : Type} (kv : KV) (hash_key params_hash : String)
    (force : Bool) (body : KV → KV × Except Err α) : ReserveOutcome α :=
  let prev_val := hget kv hash_key params_hash
  if prev_val = none ∨ force = true then
    runScope (reservedState kv hash_key params_hash force) hash_key params_hash body
  else if is_in_progress prev_val then
    ReserveOutcome.creationInProgress (hsetnx kv hash_key params_hash IN_PROGRESS_VAL)
  else
    ReserveOutcome.resourceExists (hsetnx kv hash_key params_hash IN_PROGRESS_VAL)

/-- Embedding of `make_resource`: open a reservation; inside its scope run the
registered creation function and HSET its serialized result into the same
slot. `ResourceCreationInProgress` and `ResourceExists` from the reservation
are swallowed as benign no-ops; an exception from the creation function
propagates (after the reservation's cleanup has deleted the sentinel). -/
def make_resource {R : Type} (kv : KV) (hash_key params_hash : String)
    (createFn : KV → KV × Except Err R) (ser : R → Bytes) (force : Bool) :
    KV × Except Err Unit :=
  match reserve_resource kv hash_key params_hash force (fun kv2 =>
      match createFn kv2 with
      | (kv3, Except.ok result) =>
          (hset kv3 hash_key params_hash (ser result), Except.ok result)
      | (kv3, Except.error e) => (kv3, Except.error e)) with
  | ReserveOutcome.granted kv' _ => (kv', Except.ok ())
  | ReserveOutcome.creationInProgress kv' => (kv', Except.ok ())
  | ReserveOutcome.resourceExists kv' => (kv', Except.ok ())
  | ReserveOutcome.bodyFailed kv' e => (kv', Except.error e)

/-! ## Parameter schemas and the process hash (`schemas.py`)

`HashableBaseModel.__hash__` is
`hash((type(self).__name__,) + tuple(self.__dict__.values()))`: the Python
hash of a tuple whose first component is the declared type name and whose
remaining components are the field values in declaration order. Python's
`hash` on a tuple combines the element hashes; on a `str` it depends on the
process seed (`PYTHONHASHSEED`). We model the builtin hash with concrete
deterministic combiners (the exact constants are immaterial to the claims)
parameterised by the process seed, and each model class's `__hash__` by a
function built from them, recursing into nested parameter objects exactly as
Python's tuple hash recurses via each element's own `__hash__`. Floats in the
schemas are modelled as rationals. -/

/-- Model of Python `hash` on a small `int` (the identity, as in CPython). -/
def pyHashInt (n : Int) : Int := n

/-- Model of Python `hash` on a `bool` (`hash(True) = 1`, `hash(False) = 0`). -/
def pyHashBool (b : Bool) : Int := if b then 1 else 0

/-- Model of Python `hash` on a `float`, here a rational. -/
def pyHashFloat (q : Rat) : Int := q.num * 1000003 + (q.den : Int)

/-- Model of Python `hash` on a `str`: seeded by `PYTHONHASHSEED` and
otherwise a deterministic fold over the characters. -/
def pyHashStr (seed : Int) (s : String) : Int :=
  s.foldl (fun h c => h * 31 + (c.toNat : Int)) (seed + 7)

/-- Model of Python `hash(None)`. -/
def pyHashNone : Int := 5740354900026072187

/-- Model of Python `hash` on a tuple, given the element hashes: a
deterministic combine of the element hashes and the length. -/
def pyHashTuple (hs : List Int) : Int :=
  hs.foldl (fun acc h => acc * 1000003 + h) (hs.length : Int)

/-- Model of Python `hash` on an `Optional` field given the hash for the
present case. -/
def pyHashOpt {α : Type} (f : α → Int) : Option α → Int
  | none => pyHashNone
  | some x => f x

/-- Embedding of `FilterSetParams` (a `HashableBaseModel`): optional full-text
query, optional tuple of temporary article ids (modelled as a list), optional
limit. -/
structure FilterSetParams where
  full_text_search_query : Option String
  temp_article_ids : Option (List Int)
  limit : Option Int := none
deriving DecidableEq, Repr

/-- Embedding of `ClusteringParams`: a nested `FilterSetParams` plus the
numeric knobs, fields in declaration order; float fields modelled as `Rat`. -/
structure ClusteringParams where
  filter_set : FilterSetParams
  umap_seed : Int := 1
  umap_n_neighbors : Int := 30
  umap_metric : String := "cosine"
  umap_min_dist : Rat := 0
  hdbscan_min_cluster_size : Int := 3
  hdbscan_min_samples : Int := 3
  hdbscan_cluster_selection_epsilon : Rat := 0
  hdbscan_do_flat_clustering : Bool := false
  hdbscan_cluster_flattening_epsilon : Rat := 1 / 20
deriving DecidableEq, Repr

/-- Embedding of the `ArticleGroupSummaryTerms` string enum. -/
inductive ArticleGroupSummaryTerms where
  | named_entities
  | mesh_terms
deriving DecidableEq, Repr

/-- Member name of an `ArticleGroupSummaryTerms` value; Python `Enum` members
hash via the member name string. -/
def ArticleGroupSummaryTerms.memberName : ArticleGroupSummaryTerms → String
  | .named_entities => "NAMED_ENTITIES"
  | .mesh_terms => "MESH_TERMS"

/-- Embedding of `ArticleGroupParams`: a nested `ClusteringParams`, the number
of representative terms, and the term source. -/
structure ArticleGroupParams where
  clustering : ClusteringParams
  num_terms : Int := 10
  summary_terms : ArticleGroupSummaryTerms := .mesh_terms
deriving DecidableEq, Repr

/-- Embedding of `HashableBaseModel.__hash__` at `FilterSetParams`: the tuple
hash of the type name followed by the field values in declaration order. -/
def hashFilterSetParams (seed : Int) (p : FilterSetParams) : Int :=
  pyHashTuple
    [pyHashStr seed "FilterSetParams",
     pyHashOpt (pyHashStr seed) p.full_text_search_query,
     pyHashOpt (fun t => pyHashTuple (t.map pyHashInt)) p.temp_article_ids,
     pyHashOpt pyHashInt p.limit]

/-- Embedding of `HashableBaseModel.__hash__` at `ClusteringParams`: the tuple
hash of the type name and the fields in declaration order; the nested
`filter_set` contributes through its own `__hash__`. -/
def hashClusteringParams (seed : Int) (p : ClusteringParams) : Int :=
  pyHashTuple
    [pyHashStr seed "ClusteringParams",
     hashFilterSetParams seed p.filter_set,
     pyHashInt p.umap_seed,
     pyHashInt p.umap_n_neighbors,
     pyHashStr seed p.umap_metric,
     pyHashFloat p.umap_min_dist,
     pyHashInt p.hdbscan_min_cluster_size,
     pyHashInt p.hdbscan_min_samples,
     pyHashFloat p.hdbscan_cluster_selection_epsilon,
     pyHashBool p.hdbscan_do_flat_clustering,
     pyHashFloat p.hdbscan_cluster_flattening_epsilon]

/-- Embedding of `HashableBaseModel.__hash__` at `ArticleGroupParams`; the
nested `clustering` contributes through its own `__hash__`, which in turn
embeds the filter set's hash. -/
def hashArticleGroupParams (seed : Int) (p : ArticleGroupParams) : Int :=
  pyHashTuple
    [pyHashStr seed "ArticleGroupParams",
     hashClusteringParams seed p.clustering,
     pyHashInt p.num_terms,
     pyHashStr seed p.summary_terms.memberName]

/-! ## Result serialization for filter sets

`make_resource` stores `result.json()` and `find_resource` applies
`result_cls.parse_raw`; for `FilterSetResult` the payload is the list of
article ids. The pydantic JSON round trip is an external-library primitive;
we model it by an injective byte encoding with an executable decoder, which
preserves what the cache code relies on: a real serialized result is never
zero bytes and deserializing recovers the original value. -/

/-- Embedding of `FilterSetResult`: the matching article ids. -/
structure FilterSetResult where
  article_ids : List Int
deriving DecidableEq, Repr

/-- Zigzag encoding of an integer as a byte (model; injective). -/
def zigzag (n : Int) : Nat := if 0 ≤ n then 2 * n.natAbs else 2 * n.natAbs - 1

/-- Inverse of `zigzag`. -/
def unzigzag (m : Nat) : Int :=
  if m % 2 = 0 then ((m / 2 : Nat) : Int) else -(((m + 1) / 2 : Nat) : Int)

/-- Model of `FilterSetResult.json()`: a non-empty byte encoding of the
article ids (a leading tag byte then one byte per id). -/
def serFilterSetResult (r : FilterSetResult) : Bytes :=
  1 :: r.article_ids.map zigzag

/-- Model of `FilterSetResult.parse_raw`: decode the byte encoding. -/
def parseFilterSetResult (b : Bytes) : Option FilterSetResult :=
  match b with
  | 1 :: rest => some ⟨rest.map unzigzag⟩
  | _ => none

/-! ## Resource registry (`RESOURCE_HASH_KEYS`) -/

/-- The registered resource parameter classes. -/
inductive ResourceCls where
  | filterSetParams
  | clusteringParams
  | articleGroupParams
deriving DecidableEq, Repr

/-- Embedding of the `RESOURCE_HASH_KEYS` table (total over the registered
classes; an unregistered class raises `TypeError` in
`get_resource_hash_key`, which cannot arise for the closed enumeration
here). -/
def RESOURCE_HASH_KEYS : ResourceCls → String
  | .filterSetParams => "filter_sets"
  | .clusteringParams => "clusterings"
  | .articleGroupParams => "article_groups"

/-- Embedding of `find_resource` at `FilterSetParams`: compute the params
hash with the process hash (given the shared seed), look up the registry's
hash key and result class, and delegate to `find_resource_hash`. (The source
re-raises the same two error classes with the params `repr` as message;
messages are not modelled.) -/
def find_resource (seed : Int) (kv : KV) (params : FilterSetParams) :
    Except Err FilterSetResult :=
  find_resource_hash kv (RESOURCE_HASH_KEYS .filterSetParams)
    parseFilterSetResult (toString (hashFilterSetParams seed params))

/-! ## Clustering result schema (`schemas.py`)

Floats (coordinates and metric values) are modelled as rationals; the claims
under verification only inspect list lengths, label structure and nullness of
metric fields, never float rounding. The derived `plotly_data` display fields
are omitted. The pydantic `@validator`-checked classes are embedded as plain
structures together with validating constructors returning `Except`, which is
how the source constructors behave (a failed validator raises
`ValidationError` out of `_make_clustering`). -/

/-- Metric value (a Python float), modelled as a rational. -/
abbrev MVal := Rat

/-- Reduced 2-D coordinate. The claims under verification never inspect
coordinate values, only how many there are; the float plane is modelled by
integer pairs so that concrete runs evaluate inside `decide`. -/
abbrev Coord := Int × Int

/-- High-dimensional article embedding vector (same value-irrelevant
modelling as `Coord`). -/
abbrev Emb := List Int

/-- Embedding of `ClusteringOverallMetrics`. The third declared field is
spelled `silhoutte_coefficient` in `schemas.py` (sic). -/
structure ClusteringOverallMetrics where
  dbcv : Option MVal
  silhoutte_coefficient : Option MVal
  davies_bouldin_index : Option MVal
  dunn_index : Option MVal
deriving DecidableEq, Repr

set_option linter.unusedVariables false in
/-- Model of the constructor call `ClusteringOverallMetrics(dbcv=...,
silhouette_coefficient=..., davies_bouldin_index=..., dunn_index=...)` as
written in `_make_clustering` and `_make_blank_clustering_result`. The
declared pydantic field is spelled `silhoutte_coefficient`, so the keyword
`silhouette_coefficient` passed by both call sites matches no declared field;
pydantic v1 ignores unknown keyword arguments by default, and the declared
`Optional` field takes its implicit `None` default. -/

def clusteringOverallMetricsCall
    (dbcv silhouette_coefficient davies_bouldin_index dunn_index : Option MVal) :
    ClusteringOverallMetrics :=
  { dbcv := dbcv
    -- the `silhouette_coefficient` keyword does not match the declared
    -- `silhoutte_coefficient` field and is dropped by pydantic
    silhoutte_coefficient := none
    davies_bouldin_index := davies_bouldin_index
    dunn_index := dunn_index }

/-- Embedding of `ClusteringLabelInfo` (cluster-level arrays). -/
structure ClusteringLabelInfo where
  n_per_cluster : List Nat
  cluster_validity_indices : List MVal
  cluster_center_coords : List Coord
deriving DecidableEq, Repr

/-- Validating constructor for `ClusteringLabelInfo`: the
`list_lengths_match` validator requires the same number of clusters, index
values and coords, else raises. -/
def mkClusteringLabelInfo (n_per_cluster : List Nat)
    (cluster_validity_indices : List MVal) (cluster_center_coords : List Coord) :
    Except Err ClusteringLabelInfo :=
  if n_per_cluster.length = cluster_validity_indices.length ∧
      cluster_validity_indices.length = cluster_center_coords.length then
    Except.ok ⟨n_per_cluster, cluster_validity_indices, cluster_center_coords⟩
  else
    Except.error (.validationError
      "must have same number of clusters, index values, and coords")

/-- Embedding of `ClusteringResult` (point-level arrays plus metrics). -/
structure ClusteringResult where
  article_ids : List Int
  labels : List (Option Int)
  coords : List Coord
  num_clusters : Int
  metrics : ClusteringOverallMetrics
  label_info : ClusteringLabelInfo
deriving DecidableEq, Repr

/-- Validating constructor for `ClusteringResult`: the `list_lengths_match`
validator requires the same number of article ids, labels and coords, else
raises. -/
def mkClusteringResult (article_ids : List Int) (labels : List (Option Int))
    (coords : List Coord) (num_clusters : Int) (metrics : ClusteringOverallMetrics)
    (label_info : ClusteringLabelInfo) : Except Err ClusteringResult :=
  if article_ids.length = labels.length ∧ labels.length = coords.length then
    Except.ok ⟨article_ids, labels, coords, num_clusters, metrics, label_info⟩
  else
    Except.error (.validationError
      "must have same number of article IDs, labels, and coords")

/-- Embedding of `_make_blank_clustering_result` (the 0-article terminal
case); every validator accepts the empty lists, so the pydantic construction
is a plain record here. The metrics construction goes through the same
misspelled-keyword call as the main path. -/
def make_blank_clustering_result : ClusteringResult :=
  { article_ids := []
    labels := []
    coords := []
    num_clusters := 0
    metrics := clusteringOverallMetricsCall none none none none
    label_info :=
      { n_per_cluster := [], cluster_validity_indices := [], cluster_center_coords := [] } }

/-! ## Numeric helpers used by `_make_clustering` -/

/-- Model of `raw_labels.max()` as used on the (nonempty) HDBSCAN label
array: a fold of `max` seeded at `-1`. HDBSCAN labels are always `≥ -1`, and
on a nonempty list of such values this fold is exactly the maximum (numpy
raises on an empty array, which is unreachable behind the earlier
empty-article return). -/
def npMax (l : List Int) : Int := l.foldl max (-1)

/-- Insert into a sorted list of ints (ascending). -/
def insertSorted (x : Int) : List Int → List Int
  | [] => [x]
  | y :: ys => if x ≤ y then x :: y :: ys else y :: insertSorted x ys

/-- Insertion sort, ascending. -/
def sortInts (l : List Int) : List Int := l.foldr insertSorted []

/-- Model of `np.unique(l)`: the distinct values in ascending order. -/
def npUnique (l : List Int) : List Int := sortInts l.dedup

/-- Model of `np.unique(l, return_counts=True)[1]`: the count of each
distinct value, in ascending order of value. -/
def uniqueCounts (l : List Int) : List Nat :=
  (npUnique l).map (fun x => l.count x)

/-- Mean of a list of 2-D points (integer division stands in for the float
mean; the claims only count the resulting rows). -/
def groupMeanCoord (pts : List Coord) : Coord :=
  ((pts.map Prod.fst).sum / (pts.length : Int),
   (pts.map Prod.snd).sum / (pts.length : Int))

/-- Model of the pandas `groupby("label").mean()` over the stacked
(coords, label) frame: the per-label mean coordinate, one row per distinct
label in ascending label order (pandas sorts group keys; the integer label
column has no missing values here, so no group is dropped). -/
def groupbyLabelMean (umap_data : List Coord) (raw_labels : List Int) : List Coord :=
  (npUnique raw_labels).map (fun lab =>
    groupMeanCoord (((umap_data.zip raw_labels).filter (fun p => p.2 == lab)).map Prod.fst))

/-- Maximum of a list of ints, `none` on the empty list. -/
def listMaxInt : List Int → Option Int
  | [] => none
  | x :: xs => some (xs.foldl max x)

/-- Maximum non-null label of a public label list. -/
def maxNonNullLabel (labels : List (Option Int)) : Option Int :=
  listMaxInt (labels.filterMap id)

/-! ## `_make_clustering`

The external numeric collaborators (the DB embedding query, UMAP, HDBSCAN,
and the four quality metrics) are modelled as oracle functions gathered in a
structure; their documented contracts (for example, UMAP returns one reduced
row per input row) appear as hypotheses of the theorems that need them. -/

/-- Oracles for the external numeric collaborators of `_make_clustering`. -/
structure ClusteringOracles where
  /-- The DB query joining filtered articles with their embeddings: rows of
  (article id, embedding vector). -/
  getArticleRows : List Int → List (Int × Emb)
  /-- `UMAP(...).fit_transform`, deterministic given the seeded random state
  (the parameters are fixed inside the oracle). -/
  umapTransform : List Emb → List Coord
  /-- `HDBSCAN(...).fit` followed by either `labels_` or the flat cut
  `single_linkage_tree_.get_clusters(...)` per
  `hdbscan_do_flat_clustering`; an error models the `ValueError` the fit can
  raise on degenerate inputs. -/
  hdbscanRun : List Coord → Except String (List Int)
  /-- `hdbscan.validity_index(..., per_cluster_scores=True)`: the overall
  score and one score per (non-outlier) cluster. -/
  validityIndex : List Coord → List Int → MVal × List MVal
  /-- `sklearn.metrics.silhouette_score`. -/
  silhouetteScore : List Coord → List Int → MVal
  /-- `sklearn.metrics.davies_bouldin_score`. -/
  daviesBouldinScore : List Coord → List Int → MVal
  /-- `jqmcvi.base.dunn_fast`. -/
  dunnIndexScore : List Coord → List Int → MVal

/-- Embedding of the "Calculate metrics" validity block of `_make_clustering`:
when `hdbscan_min_cluster_size ≤ 2` or `hdbscan_min_samples ≤ 2` the validity
index is skipped (`dbcv = None`, empty per-cluster scores); otherwise
`validity_index` is called with per-cluster scores and, when outliers are
present (`-1 in raw_labels`), a zero score is prepended for the outlier
pseudo-cluster. -/
def validityArrays (o : ClusteringOracles) (params : ClusteringParams)
    (umap_data : List Coord) (raw_labels : List Int) : Option MVal × List MVal :=
  if params.hdbscan_min_cluster_size ≤ 2 ∨ params.hdbscan_min_samples ≤ 2 then
    ((none : Option MVal), ([] : List MVal))
  else
    let vi := o.validityIndex umap_data raw_labels
    (some vi.1, if raw_labels.contains (-1) then (0 : MVal) :: vi.2 else vi.2)

/-- Embedding of `_make_clustering`, taking the filter-set lookup's result
(the polling loop around `find_resource` terminates with these article ids)
and the numeric oracles. Mirrors the source order: merge temporary article
ids, return the blank result on zero articles, query embeddings, reduce with
UMAP, cluster with HDBSCAN (translating its `ValueError`), derive labels and
counts, compute metrics (skipping the validity index when
`min_cluster_size ≤ 2` or `min_samples ≤ 2`, and prepending a zero validity
score when outliers are present), then build the validated result. -/
def make_clustering (o : ClusteringOracles) (params : ClusteringParams)
    (filter_set_article_ids : List Int) : Except Err ClusteringResult :=
  let filtered_article_ids :=
    match params.filter_set.temp_article_ids with
    | some temp =>
        -- Python truthiness: an empty tuple takes the no-temp-articles path
        if temp.length ≠ 0 then
          match params.filter_set.full_text_search_query with
          | none => temp
          | some _ => filter_set_article_ids ++ temp
        else filter_set_article_ids
    | none => filter_set_article_ids
  if filtered_article_ids.length = 0 then
    Except.ok make_blank_clustering_result
  else
    let rows := o.getArticleRows filtered_article_ids
    if rows.length = 0 then
      -- CPython raises unpacking `zip(*filtered_article_data)` on zero rows
      Except.error (.valueError "not enough values to unpack")
    else
      let article_ids := rows.map Prod.fst
      let article_embeddings := rows.map Prod.snd
      let umap_data := o.umapTransform article_embeddings
      match o.hdbscanRun umap_data with
      | Except.error _ =>
          Except.error (.valueError
            "Clustering Failed. Likely due to too few articles. Try again with additional articles.")
      | Except.ok raw_labels =>
          let num_clusters := npMax raw_labels + 1
          let labels := raw_labels.map (fun cluster_id =>
            if cluster_id = -1 then none else some cluster_id)
          let dbcvPair := validityArrays o params umap_data raw_labels
          let silhouette := o.silhouetteScore umap_data raw_labels
          let davies_bouldin := o.daviesBouldinScore umap_data raw_labels
          let dunn := o.dunnIndexScore umap_data raw_labels
          let n_per_cluster := uniqueCounts raw_labels
          let cluster_center_coords := groupbyLabelMean umap_data raw_labels
          match mkClusteringLabelInfo n_per_cluster dbcvPair.2 cluster_center_coords with
          | Except.error e => Except.error e
          | Except.ok label_info =>
              mkClusteringResult article_ids labels umap_data num_clusters
                (clusteringOverallMetricsCall dbcvPair.1 (some silhouette)
                  (some davies_bouldin) (some dunn))
                label_info

/-! ## Article group schema and `_make_article_groups` -/

/-- Embedding of `ArticleGroup`. -/
structure ArticleGroup where
  id : Int
  num_articles : Nat
  article_ids : List Int
  top_terms : List String
deriving DecidableEq, Repr

/-- Embedding of `ArticleGroupResult` (the derived `plotly_data` display
field is omitted). -/
structure ArticleGroupResult where
  result : List ArticleGroup
deriving DecidableEq, Repr

/-- Embedding of `_make_blank_article_group_result`: one pseudo-group with
zero members and zero terms. -/
def make_blank_article_group_result : ArticleGroupResult :=
  ⟨[{ id := 0, num_articles := 0, article_ids := [], top_terms := [] }]⟩

/-- Embedding of the top-terms loop in `_make_article_groups`:
`for i, term in enumerate(sorted_terms): top_terms.append(term); if i >=
(params.num_terms - 1): break`. Note the append happens before the break
test. -/
def takeTopTermsLoop (num_terms : Int) : Nat → List String → List String
  | _, [] => []
  | i, term :: rest =>
      term :: (if (i : Int) ≥ num_terms - 1 then []
               else takeTopTermsLoop num_terms (i + 1) rest)

/-- Stable insertion into a list sorted by a numeric key. -/
def insertByKey (key : String → Rat) (x : String) : List String → List String
  | [] => [x]
  | y :: ys => if key x < key y then x :: y :: ys else y :: insertByKey key x ys

/-- Model of Python's stable `sorted(candidates, key=...)`. -/
def sortByKey (key : String → Rat) (l : List String) : List String :=
  l.foldr (insertByKey key) []

/-- Embedding of `_make_article_groups`, taking the clustering lookup's
result (the polling loop around `find_resource` terminates with it) and two
oracles: `summaryTermsOf` gives an article's candidate terms (the MeSH-term
array or the per-article deduplicated lower-cased named entities, per
`params.summary_terms`), and `termCentroidDistance` gives the cosine distance
of a candidate term's embedding to the centroid of the cluster members'
embeddings (the external embedding model). The pandas
`groupby("cluster", sort=False)` drops the null-label rows (NaN group keys)
and yields clusters in first-appearance order; the `Counter` over the
concatenated term lists iterates in insertion order, modelled by `dedup`. -/
def make_article_groups (summaryTermsOf : Int → List String)
    (termCentroidDistance : List Int → String → Rat)
    (num_terms : Int) (clustering_result : ClusteringResult) : ArticleGroupResult :=
  let filtered_article_ids := clustering_result.article_ids
  if filtered_article_ids.length = 0 then
    make_blank_article_group_result
  else
    let pairs := filtered_article_ids.zip clustering_result.labels
    let clusters := (clustering_result.labels.filterMap id).dedup
    let groups := clusters.map (fun cluster =>
      let cluster_articles := (pairs.filter (fun p => p.2 == some cluster)).map Prod.fst
      let all_terms := (cluster_articles.map summaryTermsOf).flatten
      let candidates := all_terms.dedup.filter (fun t => all_terms.count t > 1)
      let top_terms :=
        if candidates.length ≠ 0 then
          takeTopTermsLoop num_terms 0
            (sortByKey (termCentroidDistance cluster_articles) candidates)
        else []
      { id := cluster
        num_articles := cluster_articles.length
        article_ids := cluster_articles
        top_terms := top_terms : ArticleGroup })
    ⟨groups⟩

/-- Trivial reservation body for concrete instantiation: leaves the store
unchanged and succeeds. -/
def idBody : KV → KV × Except Err Unit := fun kv => (kv, Except.ok ())

/-- Failing reservation body for concrete instantiation: raises the worker
`Shutdown` signal. -/
def shutdownBody : KV → KV × Except Err Unit := fun kv => (kv, Except.error Err.shutdown)

/-- Decidable equality for `Except`, used to evaluate concrete runs of the
embedded functions. -/
instance {ε α : Type} [DecidableEq ε] [DecidableEq α] : DecidableEq (Except ε α) :=
  fun x y =>
    match x, y with
    | Except.ok a, Except.ok b =>
        if h : a = b then isTrue (by rw [h])
        else isFalse (fun hc => h (Except.ok.inj hc))
    | Except.error a, Except.error b =>
        if h : a = b then isTrue (by rw [h])
        else isFalse (fun hc => h (Except.error.inj hc))
    | Except.ok _, Except.error _ => isFalse (fun hc => Except.noConfusion hc)
    | Except.error _, Except.ok _ => isFalse (fun hc => Except.noConfusion hc)

/-- Concrete oracle instantiation for witnessing the clustering theorems:
one-dimensional embeddings, a constant reduction, an all-zero labelling, and
a validity oracle honouring the one-score-per-real-cluster contract. -/
def witnessOracles : ClusteringOracles :=
  { getArticleRows := fun ids => ids.map (fun i => (i, [i]))
    umapTransform := fun embs => embs.map (fun _ => ((0 : Int), (0 : Int)))
    hdbscanRun := fun pts => Except.ok (pts.map (fun _ => (0 : Int)))
    validityIndex := fun _ l =>
      (0, (l.filter (fun x => !(x == (-1 : Int)))).dedup.map (fun _ => (0 : MVal)))
    silhouetteScore := fun _ _ => 3
    daviesBouldinScore := fun _ _ => 1
    dunnIndexScore := fun _ _ => 2 }

/-- Default clustering parameters over a plain query filter. -/
def witnessParams : ClusteringParams :=
  { filter_set := { full_text_search_query := some "q", temp_article_ids := none } }

/-- The clustering result `witnessOracles` produces on articles 1..5. -/
def witnessClusteringResult : ClusteringResult :=
  { article_ids := [1, 2, 3, 4, 5]
    labels := [some 0, some 0, some 0, some 0, some 0]
    coords := [(0, 0), (0, 0), (0, 0), (0, 0), (0, 0)]
    num_clusters := 1
    metrics := { dbcv := some 0, silhoutte_coefficient := none,
                 davies_bouldin_index := some 1, dunn_index := some 2 }
    -- silhouetteScore returned 3, but the misspelled-keyword constructor
    -- call drops it (see clusteringOverallMetricsCall)
    label_info := { n_per_cluster := [5], cluster_validity_indices := [0],
                    cluster_center_coords := [(0, 0)] } }

/-- Oracles realising an outlier-bearing labelling: five points become the
clusters {0, 0}, {1, 1} plus one outlier, and the validity oracle returns
one score per non-outlier cluster as `hdbscan.validity_index` does. -/
def outlierOracles : ClusteringOracles :=
  { getArticleRows := fun ids => ids.map (fun i => (i, [i]))
    umapTransform := fun embs => embs.map (fun _ => ((0 : Int), (0 : Int)))
    hdbscanRun := fun _ => Except.ok [-1, 0, 0, 1, 1]
    validityIndex := fun _ l =>
      (0, (l.filter (fun x => !(x == (-1 : Int)))).dedup.map (fun _ => (0 : MVal)))
    silhouetteScore := fun _ _ => 3
    daviesBouldinScore := fun _ _ => 1
    dunnIndexScore := fun _ _ => 2 }

/-- The clustering result `outlierOracles` produces on articles 1..5. -/
def outlierClusteringResult : ClusteringResult :=
  { article_ids := [1, 2, 3, 4, 5]
    labels := [none, some 0, some 0, some 1, some 1]
    coords := [(0, 0), (0, 0), (0, 0), (0, 0), (0, 0)]
    num_clusters := 2
    metrics := { dbcv := some 0, silhoutte_coefficient := none,
                 davies_bouldin_index := some 1, dunn_index := some 2 }
    label_info := { n_per_cluster := [1, 2, 2], cluster_validity_indices := [0, 0, 0],
                    cluster_center_coords := [(0, 0), (0, 0), (0, 0)] } }

/-! ## C8: article groups with `num_terms=0` -/

/-- Clustering result with a single two-article cluster, used to evaluate
`_make_article_groups`. -/
def twoArticleClustering : ClusteringResult :=
  { article_ids := [10, 20]
    labels := [some 0, some 0]
    coords := [(0, 0), (0, 0)]
    num_clusters := 1
    metrics := { dbcv := none, silhoutte_coefficient := none,
                 davies_bouldin_index := none, dunn_index := none }
    label_info := { n_per_cluster := [2], cluster_validity_indices := [0],
                    cluster_center_coords := [(0, 0)] } }

/-- Both articles carry the summary term "protein", so the cluster has one
recurring candidate term. -/
def twoArticleTerms : Int → List String := fun _ => ["protein"]

/-- Constant term-to-centroid distance oracle. -/
def constTermDistance : List Int → String → Rat := fun _ _ => 0

theorem hget_hset_self (kv : KV) (key field : String) (v : Bytes) :
    hget (hset kv key field v) key field = some v := by
  simp [hget, hset]

theorem hget_hdel_self (kv : KV) (key field : String) :
    hget (hdel kv key field) key field = none := by
  simp [hget, hdel]

theorem hget_empty (key field : String) : hget emptyKV key field = none := rfl

theorem hsetnx_of_present (kv : KV) (key field : String) (v w : Bytes)
    (h : hget kv key field = some w) : hsetnx kv key field v = kv := by
  simp [hsetnx, h]

theorem hsetnx_of_absent (kv : KV) (key field : String) (v : Bytes)
    (h : hget kv key field = none) : hsetnx kv key field v = hset kv key field v := by
  simp [hsetnx, h]

theorem unzigzag_zigzag (n : Int) : unzigzag (zigzag n) = n := by
  unfold zigzag unzigzag
  split <;> split <;> omega

theorem parse_ser_filterSetResult (r : FilterSetResult) :
    parseFilterSetResult (serFilterSetResult r) = some r := by
  simp only [parseFilterSetResult, serFilterSetResult, List.map_map]
  have h : unzigzag ∘ zigzag = id := funext unzigzag_zigzag
  rw [h, List.map_id]

theorem ser_filterSetResult_ne_nil (r : FilterSetResult) :
    (serFilterSetResult r).length ≠ 0 := by
  simp [serFilterSetResult]

/-! ## Shared helper lemmas and concrete instantiation helpers -/

theorem is_in_progress_some (v : Bytes) :
    is_in_progress (some v) = (v.length == 0) := by
  simp [is_in_progress]

theorem hget_reservedState_self (kv : KV) (hash_key params_hash : String)
    (force : Bool) (h : force = true ∨ hget kv hash_key params_hash = none) :
    hget (reservedState kv hash_key params_hash force) hash_key params_hash =
      some IN_PROGRESS_VAL := by
  rcases h with h | h
  · subst h
    simp only [reservedState, if_true]
    exact hget_hset_self _ _ _ _
  · unfold reservedState
    rw [hsetnx_of_absent _ _ _ _ h]
    cases force
    · simpa using hget_hset_self kv hash_key params_hash IN_PROGRESS_VAL
    · simp only [if_true]
      exact hget_hset_self _ _ _ _

theorem find_resource_hash_of_some {R : Type} (kv : KV) (hash_key : String)
    (parse : Bytes → Option R) (params_hash : String) (v : Bytes)
    (hv : hget kv hash_key params_hash = some v) :
    find_resource_hash kv hash_key parse params_hash =
      (if v.length = 0 then Except.error Err.resourceCreationInProgress
       else match parse v with
            | some r => Except.ok r
            | none => Except.error (Err.validationError "parse_raw failed")) := by
  rw [find_resource_hash, hv]
  by_cases h : v.length = 0 <;> simp [is_in_progress_some, h]

/-! ## C1: reservation outcome classification -/

/-- C1: `reserve_resource` reads the prior cache value and plants the
in-progress sentinel only if absent, in one atomic step (the pipelined
HGET+HSETNX is the single reduction step of the model), and classifies the
prior state into exactly three outcomes: no prior value → the reservation is
granted and the caller's scope runs with the sentinel planted; a zero-length
prior value (the in-progress sentinel) → `ResourceCreationInProgress`; a
non-empty prior value (a real result) → `ResourceExists`. With `force=True`
both failure branches are bypassed and the scope runs with the sentinel
unconditionally (re)planted. -/
theorem reserve_resource_classification {α : Type} (kv : KV)
    (hash_key params_hash : String) (body : KV → KV × Except Err α) :
    (hget kv hash_key params_hash = none →
      reserve_resource kv hash_key params_hash false body =
        runScope (reservedState kv hash_key params_hash false) hash_key params_hash body ∧
      hget (reservedState kv hash_key params_hash false) hash_key params_hash =
        some IN_PROGRESS_VAL) ∧
    (∀ v : Bytes, hget kv hash_key params_hash = some v → v.length = 0 →
      reserve_resource kv hash_key params_hash false body =
        ReserveOutcome.creationInProgress kv) ∧
    (∀ v : Bytes, hget kv hash_key params_hash = some v → v.length ≠ 0 →
      reserve_resource kv hash_key params_hash false body =
        ReserveOutcome.resourceExists kv) ∧
    (reserve_resource kv hash_key params_hash true body =
        runScope (reservedState kv hash_key params_hash true) hash_key params_hash body ∧
      hget (reservedState kv hash_key params_hash true) hash_key params_hash =
        some IN_PROGRESS_VAL) := by
  refine ⟨fun h => ⟨?_, ?_⟩, fun v hv hlen => ?_, fun v hv hlen => ?_, ?_, ?_⟩
  · simp [reserve_resource, h]
  · exact hget_reservedState_self kv hash_key params_hash false (Or.inr h)
  · rw [reserve_resource]
    simp only [hv]
    rw [hsetnx_of_present kv hash_key params_hash IN_PROGRESS_VAL v hv]
    simp [is_in_progress_some, hlen]
  · rw [reserve_resource]
    simp only [hv]
    rw [hsetnx_of_present kv hash_key params_hash IN_PROGRESS_VAL v hv]
    simp [is_in_progress_some, hlen]
  · simp [reserve_resource]
  · exact hget_reservedState_self kv hash_key params_hash true (Or.inl rfl)

/-- Witness for C1: concrete applications of the classification. With the
slot holding the sentinel, a non-forced reservation fails in-progress; with
the slot holding a one-byte value, it fails exists. -/
theorem reserve_resource_classification_witness :
    reserve_resource (hset emptyKV "filter_sets" "42" IN_PROGRESS_VAL)
        "filter_sets" "42" false idBody =
      ReserveOutcome.creationInProgress (hset emptyKV "filter_sets" "42" IN_PROGRESS_VAL) ∧
    reserve_resource (hset emptyKV "filter_sets" "42" [7]) "filter_sets" "42" false idBody =
      ReserveOutcome.resourceExists (hset emptyKV "filter_sets" "42" [7]) :=
  ⟨(reserve_resource_classification _ "filter_sets" "42" idBody).2.1 IN_PROGRESS_VAL
      (hget_hset_self _ _ _ _) rfl,
   (reserve_resource_classification _ "filter_sets" "42" idBody).2.2.1 [7]
      (hget_hset_self _ _ _ _) (by decide)⟩

/-! ## C2: cleanup on failure, no cleanup on success -/

/-- C2: within a granted reservation (prior value absent), if the caller's
scope raises any exception (including the worker `Shutdown` signal) the
in-progress marker is deleted before the exception propagates, so the cache
entry for this (namespace, params hash) is absent afterwards; if the scope
completes without exception the store is exactly what the body produced — no
cleanup touches the marker, which remains to be overwritten by the final
result write. -/
theorem reserve_resource_cleanup {α : Type} (kv kv3 : KV)
    (hash_key params_hash : String) (body : KV → KV × Except Err α)
    (hfree : hget kv hash_key params_hash = none) :
    (∀ e : Err,
      body (reservedState kv hash_key params_hash false) = (kv3, Except.error e) →
      reserve_resource kv hash_key params_hash false body =
        ReserveOutcome.bodyFailed (hdel kv3 hash_key params_hash) e ∧
      hget (hdel kv3 hash_key params_hash) hash_key params_hash = none) ∧
    (∀ a : α,
      body (reservedState kv hash_key params_hash false) = (kv3, Except.ok a) →
      reserve_resource kv hash_key params_hash false body =
        ReserveOutcome.granted kv3 a) := by
  constructor
  · intro e hbody
    constructor
    · simp [reserve_resource, hfree, runScope, hbody]
    · exact hget_hdel_self _ _ _
  · intro a hbody
    simp [reserve_resource, hfree, runScope, hbody]

/-- Witness for C2: a fresh slot, a body that raises the shutdown signal; the
reservation cleans the slot and re-raises, and the slot reads absent. -/
theorem reserve_resource_cleanup_witness :
    reserve_resource emptyKV "filter_sets" "42" false shutdownBody =
      ReserveOutcome.bodyFailed
        (hdel (reservedState emptyKV "filter_sets" "42" false) "filter_sets" "42")
        Err.shutdown ∧
    hget (hdel (reservedState emptyKV "filter_sets" "42" false) "filter_sets" "42")
        "filter_sets" "42" = none :=
  (reserve_resource_cleanup emptyKV _ "filter_sets" "42" shutdownBody rfl).1
    Err.shutdown rfl

/-! ## C10: forced reservation over a completed result -/

/-- C10: calling `reserve_resource` with `force=True` on a slot that already
holds a completed (non-empty) result overwrites the completed result with the
zero-length sentinel before the caller's scope runs, so a `find_resource_hash`
on the same slot during the forced recomputation raises
`ResourceCreationInProgress` instead of returning the stored result; and if
the forced creation's body then raises, the cleanup deletes the slot, so the
previous result is not restored. -/
theorem reserve_resource_force_overwrite {R α : Type} (kv kv3 : KV)
    (hash_key params_hash : String) (parse : Bytes → Option R)
    (body : KV → KV × Except Err α) (v : Bytes)
    (hprev : hget kv hash_key params_hash = some v) (hne : v.length ≠ 0) :
    reserve_resource kv hash_key params_hash true body =
      runScope (reservedState kv hash_key params_hash true) hash_key params_hash body ∧
    hget (reservedState kv hash_key params_hash true) hash_key params_hash =
      some IN_PROGRESS_VAL ∧
    find_resource_hash kv hash_key parse params_hash ≠
      Except.error Err.resourceCreationInProgress ∧
    find_resource_hash (reservedState kv hash_key params_hash true) hash_key parse
        params_hash = Except.error Err.resourceCreationInProgress ∧
    (∀ e : Err,
      body (reservedState kv hash_key params_hash true) = (kv3, Except.error e) →
      reserve_resource kv hash_key params_hash true body =
        ReserveOutcome.bodyFailed (hdel kv3 hash_key params_hash) e ∧
      hget (hdel kv3 hash_key params_hash) hash_key params_hash = none) := by
  have hsent : hget (reservedState kv hash_key params_hash true) hash_key params_hash =
      some IN_PROGRESS_VAL :=
    hget_reservedState_self kv hash_key params_hash true (Or.inl rfl)
  refine ⟨by simp [reserve_resource], hsent, ?_, ?_,
    fun e hbody => ⟨?_, hget_hdel_self _ _ _⟩⟩
  · rw [find_resource_hash, hprev]
    simp only [is_in_progress_some]
    have : (v.length == 0) = false := by
      simpa using hne
    rw [this]
    simp only [Bool.false_eq_true, if_false]
    cases parse v <;> simp
  · rw [find_resource_hash, hsent]
    simp [is_in_progress_some, IN_PROGRESS_VAL]
  · simp [reserve_resource, runScope, hbody]

/-- Witness for C10: the slot holds a one-byte completed result; forcing
enters the scope over the sentinel, a concurrent lookup sees in-progress, and
a failing body leaves the slot deleted. -/
theorem reserve_resource_force_overwrite_witness :
    find_resource_hash (reservedState (hset emptyKV "filter_sets" "42" [7])
        "filter_sets" "42" true) "filter_sets" parseFilterSetResult "42" =
      Except.error Err.resourceCreationInProgress ∧
    hget (hdel (reservedState (hset emptyKV "filter_sets" "42" [7]) "filter_sets" "42" true)
        "filter_sets" "42") "filter_sets" "42" = none :=
  ⟨(reserve_resource_force_overwrite (hset emptyKV "filter_sets" "42" [7])
      (reservedState (hset emptyKV "filter_sets" "42" [7]) "filter_sets" "42" true)
      "filter_sets" "42" parseFilterSetResult shutdownBody [7]
      (hget_hset_self _ _ _ _) (by decide)).2.2.2.1,
   ((reserve_resource_force_overwrite (hset emptyKV "filter_sets" "42" [7])
      (reservedState (hset emptyKV "filter_sets" "42" [7]) "filter_sets" "42" true)
      "filter_sets" "42" parseFilterSetResult shutdownBody [7]
      (hget_hset_self _ _ _ _) (by decide)).2.2.2.2 Err.shutdown rfl).2⟩

/-! ## C5: lookup classification -/

/-- C5: `find_resource` computes the parameter hash, reads the cache entry
under the resource's hash key, and classifies the entry: absent →
`ResourceDoesNotExist`; present → `ResourceCreationInProgress` exactly when
the stored value has zero length; otherwise the stored bytes are deserialized
into the resource's result type and returned. -/
theorem find_resource_classification (seed : Int) (kv : KV) (params : FilterSetParams) :
    (hget kv "filter_sets" (toString (hashFilterSetParams seed params)) = none →
      find_resource seed kv params = Except.error Err.resourceDoesNotExist) ∧
    (∀ v : Bytes,
      hget kv "filter_sets" (toString (hashFilterSetParams seed params)) = some v →
      (find_resource seed kv params = Except.error Err.resourceCreationInProgress ↔
        v.length = 0)) ∧
    (∀ (v : Bytes) (r : FilterSetResult),
      hget kv "filter_sets" (toString (hashFilterSetParams seed params)) = some v →
      v.length ≠ 0 → parseFilterSetResult v = some r →
      find_resource seed kv params = Except.ok r) := by
  refine ⟨fun h => ?_, fun v hv => ?_, fun v r hv hlen hparse => ?_⟩
  · simp [find_resource, find_resource_hash, RESOURCE_HASH_KEYS, h]
  · rw [find_resource, RESOURCE_HASH_KEYS,
      find_resource_hash_of_some _ _ _ _ v hv]
    constructor
    · intro hfind
      by_contra hlen
      rw [if_neg hlen] at hfind
      cases hp : parseFilterSetResult v <;> rw [hp] at hfind <;> simp at hfind
    · intro hlen
      rw [if_pos hlen]
  · rw [find_resource, RESOURCE_HASH_KEYS,
      find_resource_hash_of_some _ _ _ _ v hv, if_neg hlen, hparse]

/-- Witness for C5: all three branches at a concrete store, params and stored
value. -/
theorem find_resource_classification_witness :
    find_resource 0 emptyKV ⟨some "q", none, none⟩ =
      Except.error Err.resourceDoesNotExist ∧
    (find_resource 0
        (hset emptyKV "filter_sets"
          (toString (hashFilterSetParams 0 ⟨some "q", none, none⟩)) IN_PROGRESS_VAL)
        ⟨some "q", none, none⟩ =
      Except.error Err.resourceCreationInProgress) ∧
    find_resource 0
        (hset emptyKV "filter_sets"
          (toString (hashFilterSetParams 0 ⟨some "q", none, none⟩))
          (serFilterSetResult ⟨[3, 1]⟩))
        ⟨some "q", none, none⟩ = Except.ok ⟨[3, 1]⟩ :=
  ⟨(find_resource_classification 0 emptyKV ⟨some "q", none, none⟩).1 rfl,
   ((find_resource_classification 0 _ ⟨some "q", none, none⟩).2.1 IN_PROGRESS_VAL
      (hget_hset_self _ _ _ _)).mpr rfl,
   (find_resource_classification 0 _ ⟨some "q", none, none⟩).2.2
      (serFilterSetResult ⟨[3, 1]⟩) ⟨[3, 1]⟩ (hget_hset_self _ _ _ _)
      (ser_filterSetResult_ne_nil ⟨[3, 1]⟩) (parse_ser_filterSetResult ⟨[3, 1]⟩)⟩

/-! ## C4: make then find round trip -/

/-- C4: after a `make_resource` whose reservation is granted (the slot was
absent) and whose registered creation function succeeds with result `r`,
`find_resource_hash` on the same slot returns a value structurally equal to
`r`: the serialize-to-cache then deserialize-from-cache round trip preserves
the creation function's result. Stated for any serializer/deserializer pair
satisfying the pydantic JSON contract — deserializing inverts serializing and
a real serialized result is never zero bytes — which
`serFilterSetResult`/`parseFilterSetResult` satisfy
(`parse_ser_filterSetResult`, `ser_filterSetResult_ne_nil`). -/
theorem make_then_find_roundtrip {R : Type} (kv kv3 : KV)
    (hash_key params_hash : String) (createFn : KV → KV × Except Err R)
    (ser : R → Bytes) (parse : Bytes → Option R) (r : R)
    (hfree : hget kv hash_key params_hash = none)
    (hcreate : createFn (reservedState kv hash_key params_hash false) =
      (kv3, Except.ok r))
    (hround : parse (ser r) = some r)
    (hne : (ser r).length ≠ 0) :
    make_resource kv hash_key params_hash createFn ser false =
      (hset kv3 hash_key params_hash (ser r), Except.ok ()) ∧
    find_resource_hash (hset kv3 hash_key params_hash (ser r)) hash_key parse
        params_hash = Except.ok r := by
  constructor
  · rw [make_resource, reserve_resource]
    simp only [hfree, true_or, if_true, runScope, hcreate]
  · rw [find_resource_hash_of_some _ _ _ _ (ser r) (hget_hset_self _ _ _ _),
      if_neg hne, hround]

/-- Witness for C4: a concrete creation function producing a filter-set
result on a fresh store; the stored value reads back equal. -/
theorem make_then_find_roundtrip_witness :
    make_resource emptyKV "filter_sets" "42"
        (fun kv => (kv, Except.ok (⟨[5, -3]⟩ : FilterSetResult)))
        serFilterSetResult false =
      (hset (reservedState emptyKV "filter_sets" "42" false) "filter_sets" "42"
        (serFilterSetResult ⟨[5, -3]⟩), Except.ok ()) ∧
    find_resource_hash
        (hset (reservedState emptyKV "filter_sets" "42" false) "filter_sets" "42"
          (serFilterSetResult ⟨[5, -3]⟩))
        "filter_sets" parseFilterSetResult "42" = Except.ok ⟨[5, -3]⟩ :=
  make_then_find_roundtrip emptyKV (reservedState emptyKV "filter_sets" "42" false)
    "filter_sets" "42" (fun kv => (kv, Except.ok ⟨[5, -3]⟩)) serFilterSetResult
    parseFilterSetResult ⟨[5, -3]⟩ rfl rfl (parse_ser_filterSetResult ⟨[5, -3]⟩)
    (ser_filterSetResult_ne_nil ⟨[5, -3]⟩)

/-! ## C3: structural hashing of parameter objects -/

/-- C3: within one process (a fixed hash seed), structurally equal parameter
objects hash identically for each registered parameter class (pydantic `==`
is field-wise equality, taken here as one hypothesis per field, recursively
for nested parameter objects); and the hash incorporates the declared type
name plus all field values: it is definitionally the tuple hash of the type
name and the fields in declaration order, with a clustering's hash embedding
its filter set's hash and a group's hash embedding its clustering's hash. -/
theorem params_hash_structural (seed : Int) :
    (∀ p1 p2 : FilterSetParams,
      p1.full_text_search_query = p2.full_text_search_query →
      p1.temp_article_ids = p2.temp_article_ids →
      p1.limit = p2.limit →
      hashFilterSetParams seed p1 = hashFilterSetParams seed p2) ∧
    (∀ p1 p2 : ClusteringParams,
      p1.filter_set.full_text_search_query = p2.filter_set.full_text_search_query →
      p1.filter_set.temp_article_ids = p2.filter_set.temp_article_ids →
      p1.filter_set.limit = p2.filter_set.limit →
      p1.umap_seed = p2.umap_seed →
      p1.umap_n_neighbors = p2.umap_n_neighbors →
      p1.umap_metric = p2.umap_metric →
      p1.umap_min_dist = p2.umap_min_dist →
      p1.hdbscan_min_cluster_size = p2.hdbscan_min_cluster_size →
      p1.hdbscan_min_samples = p2.hdbscan_min_samples →
      p1.hdbscan_cluster_selection_epsilon = p2.hdbscan_cluster_selection_epsilon →
      p1.hdbscan_do_flat_clustering = p2.hdbscan_do_flat_clustering →
      p1.hdbscan_cluster_flattening_epsilon = p2.hdbscan_cluster_flattening_epsilon →
      hashClusteringParams seed p1 = hashClusteringParams seed p2) ∧
    (∀ p1 p2 : ArticleGroupParams,
      p1.clustering = p2.clustering →
      p1.num_terms = p2.num_terms →
      p1.summary_terms = p2.summary_terms →
      hashArticleGroupParams seed p1 = hashArticleGroupParams seed p2) ∧
    (∀ p : FilterSetParams,
      hashFilterSetParams seed p =
        pyHashTuple
          [pyHashStr seed "FilterSetParams",
           pyHashOpt (pyHashStr seed) p.full_text_search_query,
           pyHashOpt (fun t => pyHashTuple (t.map pyHashInt)) p.temp_article_ids,
           pyHashOpt pyHashInt p.limit]) ∧
    (∀ p : ClusteringParams,
      hashClusteringParams seed p =
        pyHashTuple
          [pyHashStr seed "ClusteringParams",
           hashFilterSetParams seed p.filter_set,
           pyHashInt p.umap_seed,
           pyHashInt p.umap_n_neighbors,
           pyHashStr seed p.umap_metric,
           pyHashFloat p.umap_min_dist,
           pyHashInt p.hdbscan_min_cluster_size,
           pyHashInt p.hdbscan_min_samples,
           pyHashFloat p.hdbscan_cluster_selection_epsilon,
           pyHashBool p.hdbscan_do_flat_clustering,
           pyHashFloat p.hdbscan_cluster_flattening_epsilon]) ∧
    (∀ p : ArticleGroupParams,
      hashArticleGroupParams seed p =
        pyHashTuple
          [pyHashStr seed "ArticleGroupParams",
           hashClusteringParams seed p.clustering,
           pyHashInt p.num_terms,
           pyHashStr seed p.summary_terms.memberName]) := by
  refine ⟨fun p1 p2 h1 h2 h3 => ?_, fun p1 p2 hf1 hf2 hf3 h1 h2 h3 h4 h5 h6 h7 h8 h9 => ?_,
    fun p1 p2 h1 h2 h3 => ?_, fun p => rfl, fun p => rfl, fun p => rfl⟩
  · cases p1; cases p2
    simp only at h1 h2 h3
    subst h1 h2 h3
    rfl
  · cases p1 with
    | mk fs1 a1 b1 c1 d1 e1 f1 g1 i1 j1 =>
      cases p2 with
      | mk fs2 a2 b2 c2 d2 e2 f2 g2 i2 j2 =>
        cases fs1; cases fs2
        simp only at hf1 hf2 hf3 h1 h2 h3 h4 h5 h6 h7 h8 h9
        subst hf1 hf2 hf3 h1 h2 h3 h4 h5 h6 h7 h8 h9
        rfl
  · cases p1; cases p2
    simp only at h1 h2 h3
    subst h1 h2 h3
    rfl

/-- Witness for C3: two separately written, field-wise equal clustering
parameter objects hash identically. -/
theorem params_hash_structural_witness :
    hashClusteringParams 0
        { filter_set := { full_text_search_query := some "malaria",
                          temp_article_ids := some [9] } } =
      hashClusteringParams 0
        { filter_set := { full_text_search_query := some "malaria",
                          temp_article_ids := some [9], limit := none },
          umap_seed := 1, umap_n_neighbors := 30, umap_metric := "cosine",
          umap_min_dist := 0, hdbscan_min_cluster_size := 3,
          hdbscan_min_samples := 3, hdbscan_cluster_selection_epsilon := 0,
          hdbscan_do_flat_clustering := false,
          hdbscan_cluster_flattening_epsilon := 1 / 20 } :=
  (params_hash_structural 0).2.1 _ _ rfl rfl rfl rfl rfl rfl rfl rfl rfl rfl rfl rfl

/-! ## List lemmas for the clustering invariants -/

theorem foldl_max_all (l : List Int) (h : ∀ x ∈ l, x = -1) : l.foldl max (-1) = -1 := by
  induction l with
  | nil => rfl
  | cons x xs ih =>
      have hx : x = -1 := h x (List.mem_cons_self x xs)
      subst hx
      simpa using ih (fun y hy => h y (List.mem_cons_of_mem _ hy))

theorem foldl_max_filter_neg_one (l : List Int) : ∀ a : Int, -1 ≤ a →
    (l.filter (fun x => !(x == (-1 : Int)))).foldl max a = l.foldl max a := by
  induction l with
  | nil => intro a _; rfl
  | cons x xs ih =>
      intro a ha
      by_cases h : x = -1
      · subst h
        have hb : (!((-1 : Int) == (-1 : Int))) = false := by simp
        simp only [List.filter_cons, hb, Bool.false_eq_true, if_false, List.foldl_cons]
        rw [ih a ha, max_eq_left ha]
      · have hb : (!(x == (-1 : Int))) = true := by simp [h]
        simp only [List.filter_cons, hb, if_pos, List.foldl_cons]
        exact ih (max a x) (le_trans ha (le_max_left a x))

theorem labelsMap_filterMap (l : List Int) :
    ((l.map fun c => if c = -1 then none else some c).filterMap id) =
      l.filter (fun x => !(x == (-1 : Int))) := by
  induction l with
  | nil => rfl
  | cons x xs ih =>
      by_cases h : x = -1 <;>
        simp [List.filter_cons, h, ih]

theorem none_mem_labelsMap (l : List Int) :
    (none ∈ l.map (fun c => if c = -1 then none else some c)) ↔ (-1 : Int) ∈ l := by
  induction l with
  | nil => simp
  | cons x xs ih =>
      by_cases h : x = -1
      · simp [h]
      · simp only [List.map_cons, if_neg h, List.mem_cons, ih]
        constructor
        · intro hc
          rcases hc with hc | hc
          · exact absurd hc (by simp)
          · exact Or.inr hc
        · intro hc
          rcases hc with hc | hc
          · exact absurd hc.symm h
          · exact Or.inr hc

theorem insertSorted_length (x : Int) (l : List Int) :
    (insertSorted x l).length = l.length + 1 := by
  induction l with
  | nil => rfl
  | cons y ys ih =>
      by_cases h : x ≤ y <;> simp [insertSorted, h, ih]

theorem sortInts_length (l : List Int) : (sortInts l).length = l.length := by
  induction l with
  | nil => rfl
  | cons x xs ih =>
      show (insertSorted x (sortInts xs)).length = xs.length + 1
      rw [insertSorted_length, ih]

theorem dedup_length_split (l : List Int) :
    l.dedup.length =
      (l.filter (fun x => !(x == (-1 : Int)))).dedup.length +
        (if (-1 : Int) ∈ l then 1 else 0) := by
  induction l with
  | nil => rfl
  | cons x xs ih =>
      by_cases hm : x = -1
      · subst hm
        have hb : (!((-1 : Int) == (-1 : Int))) = false := by simp
        simp only [List.filter_cons, hb, Bool.false_eq_true, if_false, List.mem_cons,
          true_or, if_true]
        by_cases hx : (-1 : Int) ∈ xs
        · rw [List.dedup_cons_of_mem hx, ih, if_pos hx]
        · rw [List.dedup_cons_of_not_mem hx]
          simp only [List.length_cons]
          rw [ih, if_neg hx]
      · have hb : (!(x == (-1 : Int))) = true := by simp [hm]
        have hmem : ((-1 : Int) ∈ x :: xs) ↔ ((-1 : Int) ∈ xs) := by
          constructor
          · intro h
            rcases List.mem_cons.mp h with h | h
            · exact absurd h.symm hm
            · exact h
          · exact fun h => List.mem_cons_of_mem _ h
        by_cases hx : x ∈ xs
        · have hxf : x ∈ xs.filter (fun y => !(y == (-1 : Int))) :=
            List.mem_filter.mpr ⟨hx, hb⟩
          simp only [List.filter_cons, hb, if_pos]
          rw [List.dedup_cons_of_mem hx, List.dedup_cons_of_mem hxf, ih]
          simp only [hmem]
        · have hxf : x ∉ xs.filter (fun y => !(y == (-1 : Int))) := by
            intro hc
            exact hx (List.mem_filter.mp hc).1
          simp only [List.filter_cons, hb, if_pos]
          rw [List.dedup_cons_of_not_mem hx, List.dedup_cons_of_not_mem hxf]
          simp only [List.length_cons]
          rw [ih]
          simp only [hmem]
          omega

theorem npMax_of_all_null (raw : List Int)
    (h : raw.filter (fun x => !(x == (-1 : Int))) = []) : npMax raw = -1 := by
  apply foldl_max_all
  intro x hx
  by_contra hne
  have hmem : x ∈ raw.filter (fun y => !(y == (-1 : Int))) :=
    List.mem_filter.mpr ⟨hx, by simp [hne]⟩
  rw [h] at hmem
  exact absurd hmem (List.not_mem_nil x)

theorem npMax_of_max_nonnull (raw : List Int) (m : Int)
    (hlb : ∀ x ∈ raw, -1 ≤ x)
    (h : listMaxInt (raw.filter (fun x => !(x == (-1 : Int)))) = some m) :
    npMax raw = m := by
  cases hf : raw.filter (fun x => !(x == (-1 : Int))) with
  | nil => rw [hf] at h; exact absurd h (by simp [listMaxInt])
  | cons y ys =>
      rw [hf] at h
      simp only [listMaxInt, Option.some.injEq] at h
      have hy : y ∈ raw := by
        have hmem : y ∈ raw.filter (fun x => !(x == (-1 : Int))) := by
          rw [hf]; exact List.mem_cons_self y ys
        exact (List.mem_filter.mp hmem).1
      have hy1 : -1 ≤ y := hlb y hy
      calc raw.foldl max (-1)
          = (raw.filter (fun x => !(x == (-1 : Int)))).foldl max (-1) :=
            (foldl_max_filter_neg_one raw (-1) le_rfl).symm
        _ = (y :: ys).foldl max (-1) := by rw [hf]
        _ = ys.foldl max (max (-1) y) := rfl
        _ = ys.foldl max y := by rw [max_eq_right hy1]
        _ = m := h

/-! ## C6: clustering result invariant -/

/-- C6: for every successful clustering result, the article-id, label and
coordinate lists have equal length (enforced by the result validator on the
main path and trivially by the blank result), and `num_clusters` equals the
maximum non-null label plus one, or zero when every label is null (all points
outliers). The only library fact used is the HDBSCAN contract that raw labels
are at least `-1`. -/
theorem clustering_result_invariant (o : ClusteringOracles)
    (params : ClusteringParams) (filter_set_article_ids : List Int)
    (result : ClusteringResult)
    (hlb : ∀ c l, o.hdbscanRun c = Except.ok l → ∀ x ∈ l, -1 ≤ x)
    (hmk : make_clustering o params filter_set_article_ids = Except.ok result) :
    (result.article_ids.length = result.labels.length ∧
     result.labels.length = result.coords.length) ∧
    (maxNonNullLabel result.labels = none → result.num_clusters = 0) ∧
    (∀ m : Int, maxNonNullLabel result.labels = some m →
      result.num_clusters = m + 1) := by
  simp only [make_clustering] at hmk
  split at hmk
  · -- blank-result path
    simp only [Except.ok.injEq] at hmk
    subst hmk
    refine ⟨⟨rfl, rfl⟩, fun _ => rfl, fun m hm => ?_⟩
    simp [maxNonNullLabel, listMaxInt, make_blank_clustering_result] at hm
  · split at hmk
    · exact absurd hmk (by simp)
    · split at hmk
      next heq => exact absurd hmk (by simp)
      next raw heq =>
        have hraw : ∀ x ∈ raw, -1 ≤ x := hlb _ raw heq
        split at hmk
        · exact absurd hmk (by simp)
        · simp only [mkClusteringResult] at hmk
          split at hmk
          next hlen =>
            simp only [Except.ok.injEq] at hmk
            subst hmk
            refine ⟨hlen, fun hnone => ?_, fun m hm => ?_⟩
            · simp only [maxNonNullLabel, labelsMap_filterMap] at hnone
              have hf : raw.filter (fun x => !(x == (-1 : Int))) = [] := by
                cases hc : raw.filter (fun x => !(x == (-1 : Int)))
                · rfl
                · rw [hc] at hnone; exact absurd hnone (by simp [listMaxInt])
              show npMax raw + 1 = 0
              rw [npMax_of_all_null raw hf]
              omega
            · simp only [maxNonNullLabel, labelsMap_filterMap] at hm
              show npMax raw + 1 = m + 1
              rw [npMax_of_max_nonnull raw m hraw hm]
          next => exact absurd hmk (by simp)

theorem witness_make_clustering :
    make_clustering witnessOracles witnessParams [1, 2, 3, 4, 5] =
      Except.ok witnessClusteringResult := by
  decide

theorem witness_hlb :
    ∀ c l, witnessOracles.hdbscanRun c = Except.ok l → ∀ x ∈ l, -1 ≤ x := by
  intro c l h x hx
  injection h with h
  subst h
  rw [List.mem_map] at hx
  obtain ⟨a, _, ha⟩ := hx
  omega

/-- Witness for C6: the invariant at the concrete five-article clustering. -/
theorem clustering_result_invariant_witness :
    (witnessClusteringResult.article_ids.length =
        witnessClusteringResult.labels.length ∧
      witnessClusteringResult.labels.length =
        witnessClusteringResult.coords.length) ∧
    witnessClusteringResult.num_clusters = 0 + 1 :=
  ⟨(clustering_result_invariant witnessOracles witnessParams [1, 2, 3, 4, 5]
      witnessClusteringResult witness_hlb witness_make_clustering).1,
   (clustering_result_invariant witnessOracles witnessParams [1, 2, 3, 4, 5]
      witnessClusteringResult witness_hlb witness_make_clustering).2.2 0 (by decide)⟩

/-! ## C7: cluster-level array lengths -/

theorem uniqueCounts_length (l : List Int) :
    (uniqueCounts l).length = l.dedup.length := by
  simp [uniqueCounts, npUnique, sortInts_length]

theorem groupbyLabelMean_length (u : List Coord) (l : List Int) :
    (groupbyLabelMean u l).length = l.dedup.length := by
  simp [groupbyLabelMean, npUnique, sortInts_length]

theorem validityArrays_skip (o : ClusteringOracles) (params : ClusteringParams)
    (h : params.hdbscan_min_cluster_size ≤ 2 ∨ params.hdbscan_min_samples ≤ 2)
    (u : List Coord) (r : List Int) : (validityArrays o params u r).2 = [] := by
  rw [validityArrays, if_pos h]

/-- C7 (amended): for every successful clustering result the three
cluster-level arrays (`n_per_cluster`, `cluster_validity_indices`,
`cluster_center_coords`) share one common length, namely the number of
distinct labels counting the outlier pseudo-cluster: the number of distinct
non-null labels plus one exactly when null-labelled outliers are present
(`np.unique` and the groupby include the `-1` group, and a zero validity
score is prepended for it). When the density-based validity computation is
skipped (min cluster size ≤ 2 or min samples ≤ 2), the empty validity array
fails the label-info length validator as soon as any label exists, so a
successful result can only have empty cluster-level arrays. -/
theorem clustering_label_arrays_length (o : ClusteringOracles)
    (params : ClusteringParams) (filter_set_article_ids : List Int)
    (result : ClusteringResult)
    (hmk : make_clustering o params filter_set_article_ids = Except.ok result) :
    (result.label_info.n_per_cluster.length =
       (result.labels.filterMap id).dedup.length +
         (if none ∈ result.labels then 1 else 0) ∧
     result.label_info.cluster_validity_indices.length =
       (result.labels.filterMap id).dedup.length +
         (if none ∈ result.labels then 1 else 0) ∧
     result.label_info.cluster_center_coords.length =
       (result.labels.filterMap id).dedup.length +
         (if none ∈ result.labels then 1 else 0)) ∧
    ((params.hdbscan_min_cluster_size ≤ 2 ∨ params.hdbscan_min_samples ≤ 2) →
      result.label_info.n_per_cluster = []) := by
  simp only [make_clustering] at hmk
  split at hmk
  · -- blank-result path
    simp only [Except.ok.injEq] at hmk
    subst hmk
    exact ⟨⟨rfl, rfl, rfl⟩, fun _ => rfl⟩
  · split at hmk
    · exact absurd hmk (by simp)
    · split at hmk
      next heq => exact absurd hmk (by simp)
      next raw heq =>
        split at hmk
        · exact absurd hmk (by simp)
        next label_info heqLI =>
          simp only [mkClusteringResult] at hmk
          split at hmk
          next hlen =>
            simp only [Except.ok.injEq] at hmk
            subst hmk
            simp only [mkClusteringLabelInfo] at heqLI
            split at heqLI
            next hguard =>
              simp only [Except.ok.injEq] at heqLI
              subst heqLI
              simp only [labelsMap_filterMap, none_mem_labelsMap]
              have hn : (uniqueCounts raw).length =
                  (raw.filter (fun x => !(x == (-1 : Int)))).dedup.length +
                    (if (-1 : Int) ∈ raw then 1 else 0) := by
                rw [uniqueCounts_length, dedup_length_split]
              refine ⟨⟨hn, ?_, ?_⟩, fun hskip => ?_⟩
              · rw [← hguard.1]
                exact hn
              · rw [← hguard.2, ← hguard.1]
                exact hn
              · -- validity skipped: empty indices force empty counts
                have h1 := hguard.1
                rw [validityArrays_skip o params hskip] at h1
                exact List.length_eq_zero.mp (by simpa using h1)
            next => exact absurd heqLI (by simp)
          next => exact absurd hmk (by simp)

/-- Counterexample for C7 as stated: on the outlier run all three
cluster-level arrays have length 3 while the number of distinct non-null
labels is 2 — the arrays also count the outlier pseudo-cluster, so they do
not all have length equal to the number of distinct non-null labels. -/
theorem clustering_label_arrays_counterexample :
    (make_clustering outlierOracles witnessParams [1, 2, 3, 4, 5]).toOption.map
        (fun r => (r.label_info.n_per_cluster.length,
                   r.label_info.cluster_validity_indices.length,
                   r.label_info.cluster_center_coords.length,
                   (r.labels.filterMap id).dedup.length)) =
      some (3, 3, 3, 2) ∧ (3 : Nat) ≠ 2 :=
  ⟨by decide, by decide⟩

/-- Witness for the amended C7 at the concrete outlier run. -/
theorem clustering_label_arrays_length_witness :
    outlierClusteringResult.label_info.n_per_cluster.length =
      (outlierClusteringResult.labels.filterMap id).dedup.length +
        (if none ∈ outlierClusteringResult.labels then 1 else 0) ∧
    outlierClusteringResult.label_info.cluster_validity_indices.length =
      (outlierClusteringResult.labels.filterMap id).dedup.length +
        (if none ∈ outlierClusteringResult.labels then 1 else 0) :=
  ⟨(clustering_label_arrays_length outlierOracles witnessParams [1, 2, 3, 4, 5]
      outlierClusteringResult (by decide)).1.1,
   (clustering_label_arrays_length outlierOracles witnessParams [1, 2, 3, 4, 5]
      outlierClusteringResult (by decide)).1.2.1⟩

/-! ## C9: the silhouette metric field -/

/-- C9 (evaluation at a failing input): on an ordinary successful clustering
run whose silhouette oracle computes 3, the stored metrics nevertheless carry
`silhoutte_coefficient = none`. The call site passes the keyword
`silhouette_coefficient`, which does not match the misspelled declared field
`silhoutte_coefficient`, so pydantic drops the computed value and the field
keeps its `None` default: the silhouette field of a returned metrics object
never carries the computed value. -/
theorem silhouette_field_always_null :
    witnessOracles.silhouetteScore
        [(0, 0), (0, 0), (0, 0), (0, 0), (0, 0)] [0, 0, 0, 0, 0] = 3 ∧
    make_clustering witnessOracles witnessParams [1, 2, 3, 4, 5] =
      Except.ok witnessClusteringResult ∧
    witnessClusteringResult.metrics.silhoutte_coefficient = none :=
  ⟨by decide, by decide, rfl⟩

/-- C8 (evaluation at a failing input): requesting article groups with
`num_terms = 0` on a cluster that has a recurring candidate term returns that
cluster's group with a one-element `top_terms`, not an empty one: the loop
appends the closest term before testing the break condition
`i >= num_terms - 1`, which is already true at `i = 0`. The `article_ids`
are non-empty as the claim states. -/
theorem article_groups_zero_terms_bug :
    (make_article_groups twoArticleTerms constTermDistance 0
        twoArticleClustering).result.map
        (fun g => (g.article_ids, g.top_terms)) = [([10, 20], ["protein"])] ∧
    (["protein"] : List String).length ≠ 0 :=
  ⟨by decide, by decide⟩

end Litmapper
